import Mathlib

/-
  Shallow embedding of the request-authorization-and-persistence core of
  src/lambda/lambda_function.py: the five CRUD handlers of the items API,
  the identity extraction from the request envelope, the pydantic payload
  validation, and the DynamoDB table operations they call.

  Modelling conventions.
  * The table state is a list of item records; DynamoDB key semantics are
    embedded through lookup by the id attribute.
  * Timestamps are naturals, ordered the way the ISO-8601 strings produced
    by datetime.utcnow().isoformat() are ordered.
  * A Python exception reaching an except-clause is embedded as the value
    that clause returns; each handler of the source wraps its whole body in
    a blanket except-clause returning a 500 response.
  * JSON payload values are restricted to the fragment the claims exercise:
    strings, integers and null.
-/

namespace AWSBackend

/-- A JSON value of the request payloads: request bodies are parsed with
json.loads and then validated by the pydantic models ItemCreate and
ItemUpdate (src/lambda/lambda_function.py lines 24-30). -/
inductive JVal where
  | str (s : String)
  | num (n : Int)
  | nul
deriving DecidableEq, Repr

/-- A parsed JSON object: the association list of its fields. -/
abbrev JObj := List (String × JVal)

/-- pydantic v1 coercion into a str field: a string passes through, a number
is coerced to its decimal string, null is rejected. -/
def coerceStr : JVal → Option String
  | .str s => some s
  | .num n => some (toString n)
  | .nul => none

/-- pydantic v1 coercion into an Optional str field: null becomes the value
None, any other value goes through str coercion. -/
def coerceOptStr : JVal → Option (Option String)
  | .nul => some none
  | v => (coerceStr v).map some

/-- The validated create payload (pydantic model ItemCreate, lines 24-26 of
the source: name and description, both required str fields). -/
structure ItemCreate where
  name : String
  description : String
deriving DecidableEq, Repr

/-- ItemCreate(**request_body): both fields are required, a missing field or
a value the str type rejects raises ValidationError, embedded as none. Extra
keys are ignored, the pydantic v1 default. -/
def validateCreate (o : JObj) : Option ItemCreate :=
  match o.lookup "name", o.lookup "description" with
  | some vn, some vd =>
    match coerceStr vn, coerceStr vd with
    | some n, some d => some { name := n, description := d }
    | _, _ => none
  | _, _ => none

/-- The validated update payload after dict with exclude_unset (pydantic
model ItemUpdate, lines 28-30 of the source): for each field, none means the
payload did not set it, and a set field carries an Optional str value. -/
structure ItemUpdate where
  name : Option (Option String) := none
  description : Option (Option String) := none
deriving DecidableEq, Repr

/-- Whether the dict produced with exclude_unset is empty: the source
returns 400 in that case (line 178-179). -/
def ItemUpdate.isEmptyDict (u : ItemUpdate) : Bool :=
  u.name.isNone && u.description.isNone

/-- One field of ItemUpdate from the payload: an absent key stays unset, a
present key goes through Optional str coercion. -/
def updateField (v : Option JVal) : Option (Option (Option String)) :=
  match v with
  | none => some none
  | some v => (coerceOptStr v).map some

/-- ItemUpdate(**request_body).dict(exclude_unset=True): both fields
optional, extra keys ignored; a present field whose value the Optional str
type rejects raises ValidationError, embedded as none. -/
def validateUpdate (o : JObj) : Option ItemUpdate :=
  match updateField (o.lookup "name"), updateField (o.lookup "description") with
  | some n, some d => some { name := n, description := d }
  | _, _ => none

/-- An item record of the serverless-items table. Timestamps are naturals
ordered like the ISO-8601 strings the code stores. The name and description
attributes hold optional strings because a DynamoDB attribute can hold NULL,
which update_item writes when a payload field is explicitly null. -/
structure Item where
  id : String
  user_id : String
  name : Option String
  description : Option String
  created_at : Nat
  updated_at : Nat
deriving DecidableEq, Repr

/-- The DynamoDB table state: the stored item records. -/
abbrev Store := List Item

/-- table.get_item keyed by id (line 147-149): the stored item with that id,
or none. -/
def getByID (s : Store) (i : String) : Option Item :=
  s.find? (fun it => it.id == i)

/-- table.query on the user-index keyed by user_id (lines 96-99): every
stored item owned by the given user. -/
def queryByOwner (s : Store) (uid : String) : List Item :=
  s.filter (fun it => it.user_id == uid)

/-- The SET expression built by update_item (lines 181-191): each field the
payload set, plus the refreshed updated_at. -/
def applyUpdate (it : Item) (u : ItemUpdate) (now : Nat) : Item :=
  { it with
    name := u.name.getD it.name
    description := u.description.getD it.description
    updated_at := now }

/-- table.update_item with ConditionExpression comparing user_id, SET as in
applyUpdate and ReturnValues ALL_NEW (lines 194-204), over DynamoDB
semantics: the condition is evaluated against the stored item, and on an
absent item the comparison fails, so both absence and an owner mismatch
raise ConditionalCheckFailedException, embedded as error. The source passes
the ExpressionAttributeValues keyword twice (lines 197 and 199); the second
binding, which extends the first with the user_id value, is the one embedded
here. -/
def conditionalUpdate (s : Store) (i uid : String) (u : ItemUpdate) (now : Nat) :
    Except Unit (Item × Store) :=
  match getByID s i with
  | none => .error ()
  | some it =>
    if it.user_id == uid then
      let it2 := applyUpdate it u now
      .ok (it2, s.map (fun x => if x.id == i then it2 else x))
    else
      .error ()

/-- table.delete_item with ConditionExpression comparing user_id and
ReturnValues ALL_OLD (lines 224-231), over DynamoDB semantics: absence and
owner mismatch both fail the condition and raise
ConditionalCheckFailedException, embedded as error; on success the response
carries the old attributes when a record was deleted. -/
def conditionalDelete (s : Store) (i uid : String) :
    Except Unit (Option Item × Store) :=
  match getByID s i with
  | none => .error ()
  | some it =>
    if it.user_id == uid then
      .ok (some it, s.filter (fun x => !(x.id == i)))
    else
      .error ()

/-- The request envelope as the handlers read it: the Cognito subject claim
at requestContext.authorizer.claims.sub when that structure is present, the
id path parameter when present, and the body when it parses as a JSON
object. -/
structure Event where
  sub : Option String
  pathId : Option String
  body : Option JObj
deriving Repr

/-- get_user_id (lines 41-47): the subject claim; a missing claim structure
raises ValueError, embedded as none. -/
def get_user_id (e : Event) : Option String := e.sub

/-- A response body: an item, a list of items, or a message object. -/
inductive Body where
  | item (it : Item)
  | items (l : List Item)
  | message (m : String)
deriving DecidableEq, Repr

/-- An API Gateway response: status code and JSON body (build_response also
attaches fixed content-type and CORS headers, lines 49-58). -/
structure Response where
  statusCode : Nat
  body : Body
deriving DecidableEq, Repr

/-- build_response (lines 49-58). -/
def build_response (c : Nat) (b : Body) : Response :=
  { statusCode := c, body := b }

/-- list_items (lines 91-107): query the user-index for the items owned by
the caller; any exception, in particular the ValueError of a missing
identity, is caught by the blanket except-clause returning 500. -/
def list_items (s : Store) (e : Event) : Response :=
  match get_user_id e with
  | none => build_response 500 (.message "Failed to list items")
  | some uid => build_response 200 (.items (queryByOwner s uid))

/-- create_item (lines 109-138): extract identity, parse and validate the
body, then line 119 reads context.aws_request_id, where the name context is
not bound inside create_item (it is a parameter of lambda_handler only), so
the step raises NameError; every exception, including that one, is caught by
the blanket except-clause returning 500, so no request reaches the put. -/
def create_item (s : Store) (e : Event) : Response × Store :=
  match get_user_id e with
  | none => (build_response 500 (.message "Failed to create item"), s)
  | some _uid =>
    match e.body with
    | none => (build_response 500 (.message "Failed to create item"), s)
    | some b =>
      match validateCreate b with
      | none => (build_response 500 (.message "Failed to create item"), s)
      | some _data =>
        (build_response 500 (.message "Failed to create item"), s)

/-- get_item (lines 140-166): 404 when no item has the id, 403 when the
stored owner differs from the caller, 200 with the item otherwise; a missing
identity or path parameter raises, caught as 500. -/
def get_item (s : Store) (e : Event) : Response :=
  match get_user_id e with
  | none => build_response 500 (.message "Internal server error")
  | some uid =>
    match e.pathId with
    | none => build_response 500 (.message "Internal server error")
    | some i =>
      match getByID s i with
      | none => build_response 404 (.message "Item not found")
      | some it =>
        if it.user_id == uid then build_response 200 (.item it)
        else build_response 403 (.message "Forbidden")

/-- update_item (lines 168-215): extract identity and path id, parse and
validate the body, 400 on an empty update dict, then the conditional update;
ConditionalCheckFailedException maps to 403, success to 200 with the merged
item; a missing identity, path parameter or body raises, caught as 500. -/
def update_item (s : Store) (e : Event) (now : Nat) : Response × Store :=
  match get_user_id e with
  | none => (build_response 500 (.message "Internal server error"), s)
  | some uid =>
    match e.pathId with
    | none => (build_response 500 (.message "Internal server error"), s)
    | some i =>
      match e.body with
      | none => (build_response 500 (.message "Internal server error"), s)
      | some b =>
        match validateUpdate b with
        | none => (build_response 500 (.message "Internal server error"), s)
        | some u =>
          if u.isEmptyDict then
            (build_response 400 (.message "No valid fields to update"), s)
          else
            match conditionalUpdate s i uid u now with
            | .error _ => (build_response 403 (.message "Forbidden"), s)
            | .ok (it2, s2) => (build_response 200 (.item it2), s2)

/-- delete_item (lines 217-245): extract identity and path id, then the
conditional delete; ConditionalCheckFailedException maps to 403, a success
without old attributes to 404, a success with them to 200; a missing
identity or path parameter raises, caught as 500. -/
def delete_item (s : Store) (e : Event) : Response × Store :=
  match get_user_id e with
  | none => (build_response 500 (.message "Internal server error"), s)
  | some uid =>
    match e.pathId with
    | none => (build_response 500 (.message "Internal server error"), s)
    | some i =>
      match conditionalDelete s i uid with
      | .error _ => (build_response 403 (.message "Forbidden"), s)
      | .ok (attrs, s2) =>
        match attrs with
        | none => (build_response 404 (.message "Item not found"), s2)
        | some _ => (build_response 200 (.message "Item deleted successfully"), s2)

/-! Concrete fixtures used to instantiate the theorems below on closed inputs. -/

/-- A stored item owned by userA. -/
def c1Item : Item :=
  { id := "a1", user_id := "userA", name := some "n", description := some "d",
    created_at := 0, updated_at := 0 }

/-- An update request on item a1 issued with the identity of userB. -/
def c1Evt : Event :=
  { sub := some "userB", pathId := some "a1", body := some [("name", JVal.str "x")] }

/-- A stored item owned by userA. -/
def c2ItemA : Item :=
  { id := "a1", user_id := "userA", name := some "n", description := some "d",
    created_at := 0, updated_at := 0 }

/-- A stored item owned by userB. -/
def c2ItemB : Item :=
  { id := "b1", user_id := "userB", name := some "m", description := some "e",
    created_at := 0, updated_at := 0 }

/-- A list request issued with the identity of userA. -/
def c2Evt : Event := { sub := some "userA", pathId := none, body := none }

/-- A stored item owned by userA. -/
def c3Item : Item :=
  { id := "a1", user_id := "userA", name := some "n", description := some "d",
    created_at := 0, updated_at := 0 }

/-- A get request on item a1 issued with the identity of userA. -/
def c3Evt : Event := { sub := some "userA", pathId := some "a1", body := none }

/-- A request whose envelope lacks the identity claim structure. -/
def c4Evt : Event := { sub := none, pathId := some "a1", body := some [] }

/-- A create request with identity and a payload that satisfies ItemCreate. -/
def c5Evt : Event :=
  { sub := some "u1", pathId := none,
    body := some [("name", JVal.str "Book"), ("description", JVal.str "A novel")] }

/-- A create request with identity whose payload is missing the name field. -/
def c6Evt : Event :=
  { sub := some "u1", pathId := none, body := some [("description", JVal.str "d")] }

/-- The stored item of the update-then-get round trip. -/
def c8Item : Item :=
  { id := "a1", user_id := "u1", name := some "old", description := some "keep",
    created_at := 0, updated_at := 3 }

/-- The update request of the round trip, setting name to x. -/
def c8Evt1 : Event :=
  { sub := some "u1", pathId := some "a1", body := some [("name", JVal.str "x")] }

/-- The get request of the round trip, by the same owner. -/
def c8Evt2 : Event := { sub := some "u1", pathId := some "a1", body := none }

/-- A delete request whose path id matches no stored item. -/
def c9Evt : Event := { sub := some "u1", pathId := some "zz", body := none }

/-- A delete request whose path id matches no stored item. -/
def c10Evt : Event := { sub := some "u2", pathId := some "nope", body := none }

/-! Helper lemmas about the embedded handlers and table operations. -/

/-- create_item evaluates to the 500 response on every input and leaves the
table untouched: whichever way identity extraction, body parsing and
validation go, the handler either raises into its blanket except-clause or
reaches the NameError of line 119 before the put. -/
theorem create_item_eq (s : Store) (e : Event) :
    create_item s e = (build_response 500 (Body.message "Failed to create item"), s) := by
  unfold create_item
  split
  · rfl
  split
  · rfl
  split <;> rfl

/-- An item found by id lookup is a member of the table state. -/
theorem getByID_mem {s : Store} {i : String} {it : Item}
    (h : getByID s i = some it) : it ∈ s :=
  List.mem_of_find?_eq_some h

/-- An item found by id lookup carries the looked-up id. -/
theorem getByID_beq {s : Store} {i : String} {it : Item}
    (h : getByID s i = some it) : (it.id == i) = true := by
  have h2 := List.find?_some h
  simpa using h2

/-- After replacing the record at a present id, looking that id up yields
the replacement, provided the replacement carries the id. -/
theorem getByID_replace (s : Store) (i : String) (it it2 : Item)
    (h : getByID s i = some it) (h2 : (it2.id == i) = true) :
    getByID (s.map fun x => if x.id == i then it2 else x) i = some it2 := by
  induction s with
  | nil => simp [getByID] at h
  | cons a t ih =>
    by_cases ha : (a.id == i) = true
    · simp [getByID, List.find?, ha, h2]
    · have h' : getByID t i = some it := by
        simpa [getByID, List.find?, ha] using h
      simpa [getByID, List.find?, ha] using ih h'

/-- Inversion of a successful conditional update: some stored item carried
the id, its owner matched, the result is that item merged with the payload
fields and a refreshed updated_at, and the new table state replaces exactly
the records at that id. -/
theorem conditionalUpdate_ok {s : Store} {i uid : String} {u : ItemUpdate} {now : Nat}
    {it2 : Item} {s2 : Store}
    (h : conditionalUpdate s i uid u now = .ok (it2, s2)) :
    ∃ it, getByID s i = some it ∧ (it.user_id == uid) = true ∧
      it2 = applyUpdate it u now ∧
      s2 = s.map (fun x => if x.id == i then applyUpdate it u now else x) := by
  unfold conditionalUpdate at h
  split at h
  · exact absurd h (by simp)
  next it hg =>
    split at h
    next ho =>
      simp only [Except.ok.injEq, Prod.mk.injEq] at h
      exact ⟨it, hg, ho, h.1.symm, by rw [← h.2]⟩
    next ho => exact absurd h (by simp)

/-- Inversion of a successful conditional delete: some stored item carried
the id, its owner matched, the old attributes are returned (never absent),
and the new table state drops exactly the records at that id. -/
theorem conditionalDelete_ok {s : Store} {i uid : String}
    {o : Option Item} {s2 : Store}
    (h : conditionalDelete s i uid = .ok (o, s2)) :
    ∃ it, getByID s i = some it ∧ (it.user_id == uid) = true ∧ o = some it ∧
      s2 = s.filter (fun x => !(x.id == i)) := by
  unfold conditionalDelete at h
  split at h
  · exact absurd h (by simp)
  next it hg =>
    split at h
    next ho =>
      simp only [Except.ok.injEq, Prod.mk.injEq] at h
      exact ⟨it, hg, ho, h.1.symm, h.2.symm⟩
    next ho => exact absurd h (by simp)

/-- Inversion of update_item: either the handler failed, leaving the table
unchanged with a non-200 status, or identity, path id and a nonempty valid
payload were present, the stored owner matched the caller, and the result is
200 with the merged item written back at its id. -/
theorem update_item_inv {s : Store} {e : Event} {now : Nat} {r : Response} {s2 : Store}
    (h : update_item s e now = (r, s2)) :
    (s2 = s ∧ r.statusCode ≠ 200) ∨
    (∃ uid i b u it, get_user_id e = some uid ∧ e.pathId = some i ∧ e.body = some b ∧
      validateUpdate b = some u ∧ u.isEmptyDict = false ∧
      getByID s i = some it ∧ (it.user_id == uid) = true ∧
      r = build_response 200 (Body.item (applyUpdate it u now)) ∧
      s2 = s.map (fun x => if x.id == i then applyUpdate it u now else x)) := by
  unfold update_item at h
  split at h
  · cases h; exact Or.inl ⟨rfl, by simp [build_response]⟩
  next uid hu =>
    split at h
    · cases h; exact Or.inl ⟨rfl, by simp [build_response]⟩
    next i hi =>
      split at h
      · cases h; exact Or.inl ⟨rfl, by simp [build_response]⟩
      next b hb =>
        split at h
        · cases h; exact Or.inl ⟨rfl, by simp [build_response]⟩
        next u hv =>
          split at h
          · cases h; exact Or.inl ⟨rfl, by simp [build_response]⟩
          next hne =>
            split at h
            next herr =>
              cases h; exact Or.inl ⟨rfl, by simp [build_response]⟩
            next it2 s3 hok =>
              cases h
              obtain ⟨it, hg, ho, hit2, hs3⟩ := conditionalUpdate_ok hok
              refine Or.inr ⟨uid, i, b, u, it, hu, hi, hb, hv, ?_, hg, ho, ?_, hs3⟩
              · simpa using hne
              · rw [hit2]

/-- Inversion of delete_item: either the handler failed, leaving the table
unchanged with a status that is neither 200 nor 404, or identity and path id
were present, the stored owner matched the caller, and the result is 200
with the records at that id dropped. -/
theorem delete_item_inv {s : Store} {e : Event} {r : Response} {s2 : Store}
    (h : delete_item s e = (r, s2)) :
    (s2 = s ∧ r.statusCode ≠ 200 ∧ r.statusCode ≠ 404) ∨
    (∃ uid i it, get_user_id e = some uid ∧ e.pathId = some i ∧
      getByID s i = some it ∧ (it.user_id == uid) = true ∧
      r = build_response 200 (Body.message "Item deleted successfully") ∧
      s2 = s.filter (fun x => !(x.id == i))) := by
  unfold delete_item at h
  split at h
  · cases h; exact Or.inl ⟨rfl, by simp [build_response], by simp [build_response]⟩
  next uid hu =>
    split at h
    · cases h; exact Or.inl ⟨rfl, by simp [build_response], by simp [build_response]⟩
    next i hi =>
      split at h
      next herr =>
        cases h; exact Or.inl ⟨rfl, by simp [build_response], by simp [build_response]⟩
      next attrs s3 hok =>
        obtain ⟨it, hg, ho, hattrs, hs3⟩ := conditionalDelete_ok hok
        subst hattrs
        simp only at h
        cases h
        exact Or.inr ⟨uid, i, it, hu, hi, hg, ho, rfl, hs3⟩

/-- delete_item can never answer 404: its 404 branch requires a successful
conditional delete that returned no old attributes, and the conditional
delete only succeeds on a present item, whose attributes it returns. -/
theorem delete_item_never_404 (s : Store) (e : Event) :
    (delete_item s e).1.statusCode ≠ 404 := by
  rcases hp : delete_item s e with ⟨r, s2⟩
  rcases delete_item_inv hp with ⟨_, _, h404⟩ | ⟨_, _, _, _, _, _, _, hr, _⟩
  · simpa using h404
  · rw [hr]; simp [build_response]

end AWSBackend

namespace AWSBackend

/-- C1: for every stored item owned by user A and every well-formed update
request issued with the identity of a different user B, update_item answers
403 Forbidden and the table state is returned unchanged, so no field of the
stored item, updated_at included, is modified. -/
theorem update_by_other_user_forbidden_unchanged (s : Store) (e : Event) (now : Nat)
    (A B i : String) (it : Item) (b : JObj) (u : ItemUpdate)
    (hB : get_user_id e = some B) (hi : e.pathId = some i) (hb : e.body = some b)
    (hv : validateUpdate b = some u) (hne : u.isEmptyDict = false)
    (hit : getByID s i = some it) (hA : it.user_id = A) (hAB : A ≠ B) :
    update_item s e now = (build_response 403 (Body.message "Forbidden"), s) := by
  have hbeq : (it.user_id == B) = false := by
    rw [hA]; exact beq_eq_false_iff_ne.mpr hAB
  have hcond : conditionalUpdate s i B u now = .error () := by
    unfold conditionalUpdate
    rw [hit]
    simp [hbeq]
  simp [update_item, hB, hi, hb, hv, hne, hcond]

/-- Witness for C1: userB updating the item a1 owned by userA gets 403 and
the singleton table is unchanged. -/
theorem update_by_other_user_forbidden_unchanged_w :
    update_item [c1Item] c1Evt 5 = (build_response 403 (Body.message "Forbidden"), [c1Item]) :=
  update_by_other_user_forbidden_unchanged [c1Item] c1Evt 5 "userA" "userB" "a1" c1Item
    [("name", JVal.str "x")] { name := some (some "x"), description := none }
    rfl rfl rfl rfl rfl (by decide) rfl (by decide)

/-- C2: for every table state, every item in the list that list_items
returns to user A is owned by A, so the listing never contains an item owned
by another user, whatever interleaving of creates produced the state. -/
theorem list_items_returns_only_owner (s : Store) (e : Event) (A : String)
    (l : List Item) (it : Item)
    (hA : get_user_id e = some A) (hl : (list_items s e).body = Body.items l)
    (hit : it ∈ l) : it.user_id = A := by
  simp only [list_items, hA, build_response] at hl
  injection hl with hl
  subst hl
  have hm : it ∈ s ∧ it.user_id = A := by simpa [queryByOwner] using hit
  exact hm.2

/-- Witness for C2: listing as userA over a table holding one item of userA
and one of userB returns a list whose member is owned by userA. -/
theorem list_items_returns_only_owner_w : c2ItemA.user_id = "userA" :=
  list_items_returns_only_owner [c2ItemA, c2ItemB] c2Evt "userA" [c2ItemA] c2ItemA
    rfl (by decide) (by decide)

/-- C3: with identity and an id path parameter present, get_item answers 404
when no stored item carries the id, 200 with the item when it exists and the
caller owns it, and 403 when it exists with a different owner. -/
theorem get_item_status_by_ownership (s : Store) (e : Event) (uid i : String)
    (hu : get_user_id e = some uid) (hi : e.pathId = some i) :
    (getByID s i = none → get_item s e = build_response 404 (Body.message "Item not found")) ∧
    (∀ it, getByID s i = some it → it.user_id = uid →
      get_item s e = build_response 200 (Body.item it)) ∧
    (∀ it, getByID s i = some it → it.user_id ≠ uid →
      get_item s e = build_response 403 (Body.message "Forbidden")) := by
  refine ⟨?_, ?_, ?_⟩
  · intro h; simp [get_item, hu, hi, h]
  · intro it h ho
    have hb : (it.user_id == uid) = true := beq_iff_eq.mpr ho
    simp [get_item, hu, hi, h, hb]
  · intro it h ho
    have hb : (it.user_id == uid) = false := beq_eq_false_iff_ne.mpr ho
    simp [get_item, hu, hi, h, hb]

/-- Witness for C3: the owner fetching the stored item a1 gets 200 with the
item. -/
theorem get_item_status_by_ownership_w :
    get_item [c3Item] c3Evt = build_response 200 (Body.item c3Item) :=
  (get_item_status_by_ownership [c3Item] c3Evt "userA" "a1" rfl rfl).2.1 c3Item
    (by decide) rfl

/-- C4 as amended: for every operation, a request whose envelope lacks the
expected identity claim structure yields status 500, not 401: the ValueError
raised by get_user_id is caught by each handler blanket except-clause, which
returns a 500 response. -/
theorem missing_identity_yields_500 (s : Store) (e : Event) (now : Nat)
    (h : get_user_id e = none) :
    (list_items s e).statusCode = 500 ∧
    (create_item s e).1.statusCode = 500 ∧
    (get_item s e).statusCode = 500 ∧
    (update_item s e now).1.statusCode = 500 ∧
    (delete_item s e).1.statusCode = 500 := by
  refine ⟨?_, ?_, ?_, ?_, ?_⟩ <;>
    simp [list_items, create_item_eq, get_item, update_item, delete_item, h, build_response]

/-- Counterexample for C4 as stated: a list request without the identity
claim structure is answered with 500, not with 401. -/
theorem missing_identity_not_401_cex :
    (list_items [] c4Evt).statusCode = 500 ∧ (list_items [] c4Evt).statusCode ≠ 401 := by
  decide

/-- Witness for the amended C4: all five handlers answer 500 on a concrete
request without identity. -/
theorem missing_identity_yields_500_w :
    (list_items [] c4Evt).statusCode = 500 ∧
    (create_item [] c4Evt).1.statusCode = 500 ∧
    (get_item [] c4Evt).statusCode = 500 ∧
    (update_item [] c4Evt 0).1.statusCode = 500 ∧
    (delete_item [] c4Evt).1.statusCode = 500 :=
  missing_identity_yields_500 [] c4Evt 0 rfl

/-- C5, the divergence evaluated: even with identity present and a payload
that ItemCreate accepts, create_item answers 500 and stores nothing, because
line 119 reads the unbound name context and the NameError lands in the
blanket except-clause; the claimed 201 with the created item is unreachable. -/
theorem create_valid_payload_still_500 (s : Store) (e : Event) (_uid : String)
    (_b : JObj) (_d : ItemCreate)
    (_hu : get_user_id e = some _uid) (_hb : e.body = some _b)
    (_hv : validateCreate _b = some _d) :
    create_item s e = (build_response 500 (Body.message "Failed to create item"), s) :=
  create_item_eq s e

/-- Witness for C5: the concrete valid create request of the spec scenario
is answered with 500 and leaves the table empty. -/
theorem create_valid_payload_still_500_w :
    create_item [] c5Evt = (build_response 500 (Body.message "Failed to create item"), []) :=
  create_valid_payload_still_500 [] c5Evt "u1"
    [("name", JVal.str "Book"), ("description", JVal.str "A novel")]
    { name := "Book", description := "A novel" } rfl rfl (by decide)

/-- Counterexample for C6 as stated: a create request with identity whose
payload is missing the name field is answered with 500, not with 400. -/
theorem create_invalid_payload_not_400_cex :
    (create_item [] c6Evt).1.statusCode = 500 ∧
    (create_item [] c6Evt).1.statusCode ≠ 400 := by
  decide

/-- C6 as amended: for every request with identity present whose payload is
invalid for create — name missing or null, description missing or null, or
name the empty string — create_item fails with status 500 and stores
nothing: the pydantic ValidationError is caught by the blanket
except-clause, no 400 is ever built, and an empty name is not rejected by
validation at all but the request still ends in 500 through the unbound
context name. -/
theorem create_invalid_payload_500 (s : Store) (e : Event) (_uid : String) (_b : JObj)
    (_hu : get_user_id e = some _uid) (_hb : e.body = some _b)
    (_hinv : _b.lookup "name" = none ∨ _b.lookup "name" = some JVal.nul ∨
      _b.lookup "description" = none ∨ _b.lookup "description" = some JVal.nul ∨
      _b.lookup "name" = some (JVal.str "")) :
    (create_item s e).1.statusCode = 500 ∧ (create_item s e).2 = s := by
  constructor <;> simp [create_item_eq, build_response]

/-- Witness for the amended C6: the concrete nameless create request is
answered with 500 and the table stays empty. -/
theorem create_invalid_payload_500_w :
    (create_item [] c6Evt).1.statusCode = 500 ∧ (create_item [] c6Evt).2 = [] :=
  create_invalid_payload_500 [] c6Evt "u1" [("description", JVal.str "d")]
    rfl rfl (Or.inl (by decide))

/-- C7: across the mutating operations, the id and user_id of every stored
item are preserved (each record of the new table state descends from a
record of the old one with the same id and owner), a mutation succeeds only
when the caller identity equals the stored owner, a successful update
refreshes updated_at of the record at the updated id, and create_item never
changes the table state. -/
theorem crud_mutation_invariants (s : Store) (e : Event) (now : Nat) :
    (∀ x, x ∈ (update_item s e now).2 →
      ∃ y, y ∈ s ∧ x.id = y.id ∧ x.user_id = y.user_id) ∧
    ((update_item s e now).1.statusCode = 200 →
      ∃ uid i it, get_user_id e = some uid ∧ e.pathId = some i ∧
        getByID s i = some it ∧ it.user_id = uid ∧
        ∃ it2, getByID (update_item s e now).2 i = some it2 ∧
          it2.updated_at = now ∧ it2.id = it.id ∧ it2.user_id = it.user_id) ∧
    (∀ x, x ∈ (delete_item s e).2 → x ∈ s) ∧
    ((delete_item s e).1.statusCode = 200 →
      ∃ uid i it, get_user_id e = some uid ∧ e.pathId = some i ∧
        getByID s i = some it ∧ it.user_id = uid) ∧
    (create_item s e).2 = s := by
  have hpu : update_item s e now = ((update_item s e now).1, (update_item s e now).2) := rfl
  have hpd : delete_item s e = ((delete_item s e).1, (delete_item s e).2) := rfl
  refine ⟨?_, ?_, ?_, ?_, ?_⟩
  · intro x hx
    rcases update_item_inv hpu with ⟨hs, _⟩ | ⟨uid, i, b, u, it, hu, hi, hb, hv, hne, hg, ho, hr, hs⟩
    · rw [hs] at hx; exact ⟨x, hx, rfl, rfl⟩
    · rw [hs] at hx
      rcases List.mem_map.mp hx with ⟨y, hy, hxy⟩
      by_cases hyi : (y.id == i) = true
      · rw [if_pos hyi] at hxy
        subst hxy
        exact ⟨it, getByID_mem hg, rfl, rfl⟩
      · rw [if_neg hyi] at hxy
        subst hxy
        exact ⟨y, hy, rfl, rfl⟩
  · intro h200
    rcases update_item_inv hpu with ⟨_, hne200⟩ | ⟨uid, i, b, u, it, hu, hi, hb, hv, hne, hg, ho, hr, hs⟩
    · exact absurd h200 hne200
    · refine ⟨uid, i, it, hu, hi, hg, eq_of_beq ho, applyUpdate it u now, ?_, rfl, rfl, rfl⟩
      rw [hs]
      exact getByID_replace s i it (applyUpdate it u now) hg
        (by simpa [applyUpdate] using getByID_beq hg)
  · intro x hx
    rcases delete_item_inv hpd with ⟨hs, _, _⟩ | ⟨uid, i, it, hu, hi, hg, ho, hr, hs⟩
    · rw [hs] at hx; exact hx
    · rw [hs] at hx; exact (List.mem_filter.mp hx).1
  · intro h200
    rcases delete_item_inv hpd with ⟨_, hne200, _⟩ | ⟨uid, i, it, hu, hi, hg, ho, hr, hs⟩
    · exact absurd h200 hne200
    · exact ⟨uid, i, it, hu, hi, hg, eq_of_beq ho⟩
  · rw [create_item_eq]

/-- C8: updating an owned stored item with a payload setting name to x and
then fetching the same id as the owner returns 200 with an item whose name
is x, whose description is the pre-update value, and whose updated_at is
strictly greater than the pre-update updated_at, granted the update
timestamp exceeds the stored one. -/
theorem update_then_get_roundtrip (s : Store) (e1 e2 : Event) (uid i x : String)
    (it : Item) (now : Nat)
    (h1 : get_user_id e1 = some uid) (h2 : e1.pathId = some i)
    (h3 : e1.body = some [("name", JVal.str x)])
    (h4 : get_user_id e2 = some uid) (h5 : e2.pathId = some i)
    (h6 : getByID s i = some it) (h7 : it.user_id = uid) (h8 : it.updated_at < now) :
    ∃ it2, get_item (update_item s e1 now).2 e2 = build_response 200 (Body.item it2) ∧
      it2.name = some x ∧ it2.description = it.description ∧
      it.updated_at < it2.updated_at := by
  have hv : validateUpdate [("name", JVal.str x)] =
      some { name := some (some x), description := none } := rfl
  have hbeq : (it.user_id == uid) = true := beq_iff_eq.mpr h7
  have hcond : conditionalUpdate s i uid { name := some (some x), description := none } now =
      .ok (applyUpdate it { name := some (some x), description := none } now,
        s.map (fun y => if y.id == i then
          applyUpdate it { name := some (some x), description := none } now else y)) := by
    unfold conditionalUpdate
    rw [h6]
    simp [hbeq]
  have hupd : (update_item s e1 now).2 = s.map (fun y => if y.id == i then
      applyUpdate it { name := some (some x), description := none } now else y) := by
    simp [update_item, h1, h2, h3, hv, ItemUpdate.isEmptyDict, hcond]
  have hget : getByID ((update_item s e1 now).2) i =
      some (applyUpdate it { name := some (some x), description := none } now) := by
    rw [hupd]
    exact getByID_replace s i it _ h6 (by simpa [applyUpdate] using getByID_beq h6)
  refine ⟨applyUpdate it { name := some (some x), description := none } now, ?_, ?_, ?_, ?_⟩
  · have ho2 : ((applyUpdate it { name := some (some x), description := none } now).user_id == uid) = true := by
      simpa [applyUpdate] using hbeq
    simp [get_item, h4, h5, hget, ho2]
  · simp [applyUpdate]
  · simp [applyUpdate]
  · simpa [applyUpdate] using h8

/-- Witness for C8: the concrete round trip on item a1 at time 7 returns the
renamed item with its description kept and its updated_at increased. -/
theorem update_then_get_roundtrip_w :
    ∃ it2, get_item (update_item [c8Item] c8Evt1 7).2 c8Evt2 =
        build_response 200 (Body.item it2) ∧
      it2.name = some "x" ∧ it2.description = c8Item.description ∧
      c8Item.updated_at < it2.updated_at :=
  update_then_get_roundtrip [c8Item] c8Evt1 c8Evt2 "u1" "a1" "x" c8Item 7
    rfl rfl rfl rfl rfl (by decide) rfl (by decide)

/-- C9: with identity present and a path id matching no stored item,
delete_item fails with status 403 or 404 and never answers 200. -/
theorem delete_absent_fails_never_200 (s : Store) (e : Event) (uid i : String)
    (hu : get_user_id e = some uid) (hi : e.pathId = some i)
    (h : getByID s i = none) :
    ((delete_item s e).1.statusCode = 403 ∨ (delete_item s e).1.statusCode = 404) ∧
    (delete_item s e).1.statusCode ≠ 200 := by
  have hcond : conditionalDelete s i uid = .error () := by
    unfold conditionalDelete; rw [h]
  have hd : delete_item s e = (build_response 403 (Body.message "Forbidden"), s) := by
    simp [delete_item, hu, hi, hcond]
  rw [hd]
  exact ⟨Or.inl rfl, by simp [build_response]⟩

/-- Witness for C9: deleting an absent id from the empty table fails with
403 and not with 200. -/
theorem delete_absent_fails_never_200_w :
    ((delete_item [] c9Evt).1.statusCode = 403 ∨
      (delete_item [] c9Evt).1.statusCode = 404) ∧
    (delete_item [] c9Evt).1.statusCode ≠ 200 :=
  delete_absent_fails_never_200 [] c9Evt "u1" "zz" rfl rfl rfl

/-- C10: with identity present and a path id matching no stored item,
delete_item answers 403 and never 404: the conditional delete fails with a
condition-check error on an absent item, so the handler branch answering 404
when no prior attributes come back is unreachable on every input. -/
theorem delete_absent_403_and_404_unreachable (s : Store) (e : Event) (uid i : String)
    (hu : get_user_id e = some uid) (hi : e.pathId = some i)
    (h : getByID s i = none) :
    (delete_item s e).1.statusCode = 403 ∧
    ∀ s3 e3, (delete_item s3 e3).1.statusCode ≠ 404 := by
  constructor
  · have hcond : conditionalDelete s i uid = .error () := by
      unfold conditionalDelete; rw [h]
    simp [delete_item, hu, hi, hcond, build_response]
  · intro s3 e3
    exact delete_item_never_404 s3 e3

/-- Witness for C10: deleting an absent id from the empty table answers 403,
and no delete request on any table state answers 404. -/
theorem delete_absent_403_and_404_unreachable_w :
    (delete_item [] c10Evt).1.statusCode = 403 ∧
    ∀ s3 e3, (delete_item s3 e3).1.statusCode ≠ 404 :=
  delete_absent_403_and_404_unreachable [] c10Evt "u2" "nope" rfl rfl rfl

end AWSBackend
